import Mathlib

/-!
Verification of the recipe-nutrition frontend's data pipeline.

The definitions below are a shallow embedding of the TypeScript sources
`src/pet-nutrition-frontend/src/hooks/useRecipeData.ts`,
`src/pet-nutrition-frontend/src/types/index.ts`, the services/api module,
the AAFCO standards constants module, and the recipe-result view component.
JavaScript numbers are modelled as rationals (ℚ), optional / nullable
fields as `Option`, and JavaScript truthiness tests are modelled explicitly
(`null`/`undefined`/`0`/`""` are falsy).
-/

namespace PetNutrition

/-- JS truthiness of a nullable number: `null`, `undefined` and `0` are falsy. -/
def jsTruthyQ (o : Option ℚ) : Bool := o.getD 0 != 0

/-- JS `a || b` for a nullable string `a`: falls through on `null`/`undefined`/`""`. -/
def jsOrS (a : Option String) (b : String) : String :=
  match a with
  | some s => if s = "" then b else s
  | none => b

/-- JS `a || b` for a nullable number `a`: falls through on `null`/`undefined`/`0`. -/
def jsOrQ (a : Option ℚ) (b : ℚ) : ℚ :=
  match a with
  | some q => if q = 0 then b else q
  | none => b

/-- The numeric value of JavaScript's `x.toFixed(d)`: `x` rounded to `d`
decimal places, ties rounded up (towards `+∞`), as `Number.prototype.toFixed`
does for the magnitudes appearing here. -/
def toFixedVal (d : ℕ) (q : ℚ) : ℚ := (round (q * 10 ^ d) : ℤ) / 10 ^ d

/-- `enum LifeStage` from `types/index.ts`. -/
inductive LifeStage
  | DOG_PUPPY
  | DOG_ADULT
  | CAT_KITTEN
  | CAT_ADULT
deriving DecidableEq, Repr

-- The `NutrientID` constants from the AAFCO standards module.
namespace NutrientID

def ENERGY : ℕ := 1008
def PROTEIN : ℕ := 1003
def CALCIUM : ℕ := 1087
def PHOSPHORUS : ℕ := 1091
def FAT : ℕ := 1004
def CARBOHYDRATE : ℕ := 1005
def WATER : ℕ := 1051
def FIBER : ℕ := 1079
def IRON : ℕ := 1089
def ZINC : ℕ := 1095
def COPPER : ℕ := 1098
def MAGNESIUM : ℕ := 1090
def POTASSIUM : ℕ := 1092
def SODIUM : ℕ := 1093
def SELENIUM : ℕ := 1103
def VITAMIN_A : ℕ := 1104
def VITAMIN_D : ℕ := 1110
def VITAMIN_E : ℕ := 1109
def VITAMIN_B1 : ℕ := 1165
def VITAMIN_B12 : ℕ := 1178
def RIBOFLAVIN : ℕ := 1166
def OMEGA_6 : ℕ := 1316
def OMEGA_3 : ℕ := 1404

end NutrientID

/-- One entry of the AAFCO standards table: `{ min, max, unit, nutrient_id }`.
In the source every entry has a numeric `min`; `max` is `number | null`. -/
structure AAFCOStd where
  min : ℚ
  max : Option ℚ
  unit : String
  nutrient_id : ℕ
deriving DecidableEq, Repr

open NutrientID in
/-- The `AAFCO_STANDARDS` table (per 1000 kcal ME), keyed by life stage and
nutrient id, transcribed from the AAFCO standards constants module. -/
def AAFCO_STANDARDS : LifeStage → List (ℕ × AAFCOStd)
  | .DOG_ADULT =>
    [ (PROTEIN, ⟨45.0, none, "G", PROTEIN⟩),
      (FAT, ⟨13.8, none, "G", FAT⟩),
      (ENERGY, ⟨2000, none, "KCAL", ENERGY⟩),
      (CALCIUM, ⟨1.25 * 1000, some (6.25 * 1000), "MG", CALCIUM⟩),
      (PHOSPHORUS, ⟨1.0 * 1000, some (4.0 * 1000), "MG", PHOSPHORUS⟩),
      (POTASSIUM, ⟨1.5 * 1000, none, "MG", POTASSIUM⟩),
      (SODIUM, ⟨0.2 * 1000, none, "MG", SODIUM⟩),
      (MAGNESIUM, ⟨0.15 * 1000, none, "MG", MAGNESIUM⟩),
      (IRON, ⟨10, none, "MG", IRON⟩),
      (ZINC, ⟨20, none, "MG", ZINC⟩),
      (COPPER, ⟨1.83, none, "MG", COPPER⟩),
      (SELENIUM, ⟨0.08 * 1000, some (0.5 * 1000), "UG", SELENIUM⟩),
      (VITAMIN_A, ⟨1250, some 62500, "IU", VITAMIN_A⟩),
      (VITAMIN_E, ⟨12.5 * 0.6774, none, "MG", VITAMIN_E⟩),
      (VITAMIN_D, ⟨125, some 750, "IU", VITAMIN_D⟩),
      (VITAMIN_B1, ⟨0.56, none, "MG", VITAMIN_B1⟩),
      (VITAMIN_B12, ⟨0.007 * 1000, none, "UG", VITAMIN_B12⟩),
      (RIBOFLAVIN, ⟨1.3, none, "MG", RIBOFLAVIN⟩),
      (OMEGA_6, ⟨3.3, none, "G", OMEGA_6⟩),
      (OMEGA_3, ⟨0.2, none, "G", OMEGA_3⟩) ]
  | .DOG_PUPPY =>
    [ (PROTEIN, ⟨30, none, "G", PROTEIN⟩),
      (FAT, ⟨21.3, none, "G", FAT⟩),
      (CALCIUM, ⟨3.0 * 1000, some (6.25 * 1000), "MG", CALCIUM⟩),
      (PHOSPHORUS, ⟨2.5 * 1000, some (4.0 * 1000), "MG", PHOSPHORUS⟩),
      (POTASSIUM, ⟨1.5 * 1000, none, "MG", POTASSIUM⟩),
      (SODIUM, ⟨0.8 * 1000, none, "MG", SODIUM⟩),
      (MAGNESIUM, ⟨0.14 * 1000, none, "MG", MAGNESIUM⟩),
      (IRON, ⟨22, none, "MG", IRON⟩),
      (ZINC, ⟨25, none, "MG", ZINC⟩),
      (COPPER, ⟨3.1, none, "MG", COPPER⟩),
      (SELENIUM, ⟨0.5 * 1000, none, "UG", SELENIUM⟩),
      (VITAMIN_A, ⟨1250, some 62500, "IU", VITAMIN_A⟩),
      (VITAMIN_D, ⟨125, some 750, "IU", VITAMIN_D⟩),
      (VITAMIN_E, ⟨12.5, none, "MG", VITAMIN_E⟩),
      (VITAMIN_B1, ⟨0.56, none, "MG", VITAMIN_B1⟩),
      (VITAMIN_B12, ⟨0.007 * 1000, none, "UG", VITAMIN_B12⟩),
      (RIBOFLAVIN, ⟨1.3, none, "MG", RIBOFLAVIN⟩),
      (OMEGA_6, ⟨3.3, none, "G", OMEGA_6⟩),
      (OMEGA_3, ⟨0.2, none, "G", OMEGA_3⟩) ]
  | .CAT_ADULT =>
    [ (PROTEIN, ⟨63.0, none, "G", PROTEIN⟩),
      (FAT, ⟨22.5, none, "G", FAT⟩),
      (ENERGY, ⟨2000, none, "KCAL", ENERGY⟩),
      (CALCIUM, ⟨1.44 * 1000, some (6.25 * 1000), "MG", CALCIUM⟩),
      (PHOSPHORUS, ⟨1.25 * 1000, some (4.0 * 1000), "MG", PHOSPHORUS⟩),
      (POTASSIUM, ⟨1.67 * 1000, none, "MG", POTASSIUM⟩),
      (SODIUM, ⟨0.21 * 1000, none, "MG", SODIUM⟩),
      (MAGNESIUM, ⟨0.1 * 1000, none, "MG", MAGNESIUM⟩),
      (IRON, ⟨20, none, "MG", IRON⟩),
      (ZINC, ⟨18.75, none, "MG", ZINC⟩),
      (COPPER, ⟨1.25, none, "MG", COPPER⟩),
      (SELENIUM, ⟨0.067 * 1000, some (0.5 * 1000), "UG", SELENIUM⟩),
      (VITAMIN_A, ⟨2083, some 333333, "IU", VITAMIN_A⟩),
      (VITAMIN_E, ⟨9.58, none, "MG", VITAMIN_E⟩),
      (VITAMIN_D, ⟨62.5, some 1667, "IU", VITAMIN_D⟩),
      (VITAMIN_B1, ⟨1.4, none, "MG", VITAMIN_B1⟩),
      (VITAMIN_B12, ⟨0.0056 * 1000, none, "UG", VITAMIN_B12⟩),
      (RIBOFLAVIN, ⟨1.0, none, "MG", RIBOFLAVIN⟩),
      (OMEGA_6, ⟨1.4, none, "G", OMEGA_6⟩),
      (OMEGA_3, ⟨0.06, none, "G", OMEGA_3⟩) ]
  | .CAT_KITTEN =>
    [ (PROTEIN, ⟨75.0, none, "G", PROTEIN⟩),
      (FAT, ⟨22.5, none, "G", FAT⟩),
      (CALCIUM, ⟨2.4 * 1000, some (6.25 * 1000), "MG", CALCIUM⟩),
      (PHOSPHORUS, ⟨2.0 * 1000, some (4.0 * 1000), "MG", PHOSPHORUS⟩),
      (POTASSIUM, ⟨1.67 * 1000, none, "MG", POTASSIUM⟩),
      (SODIUM, ⟨0.67 * 1000, none, "MG", SODIUM⟩),
      (MAGNESIUM, ⟨0.1 * 1000, none, "MG", MAGNESIUM⟩),
      (IRON, ⟨20, none, "MG", IRON⟩),
      (ZINC, ⟨18.75, none, "MG", ZINC⟩),
      (COPPER, ⟨1.67, none, "MG", COPPER⟩),
      (SELENIUM, ⟨0.083 * 1000, none, "UG", SELENIUM⟩),
      (VITAMIN_A, ⟨2083, some 333333, "IU", VITAMIN_A⟩),
      (VITAMIN_E, ⟨9.58, none, "MG", VITAMIN_E⟩),
      (VITAMIN_D, ⟨62.5, some 1667, "IU", VITAMIN_D⟩),
      (VITAMIN_B1, ⟨1.4, none, "MG", VITAMIN_B1⟩),
      (VITAMIN_B12, ⟨0.0056 * 1000, none, "UG", VITAMIN_B12⟩),
      (RIBOFLAVIN, ⟨1.0, none, "MG", RIBOFLAVIN⟩),
      (OMEGA_6, ⟨1.4, none, "G", OMEGA_6⟩),
      (OMEGA_3, ⟨0.06, none, "G", OMEGA_3⟩) ]

/-- `AAFCO_STANDARDS[life_stage][nutrient.id]`; `undefined` when the id is
absent (the `if (!standard) return;` guard in `complianceData`). -/
def lookupStd (ls : LifeStage) (nid : ℕ) : Option AAFCOStd :=
  (AAFCO_STANDARDS ls).lookup nid

/-- The status computation inside `useRecipeData.complianceData`:
`'DEFICIENT'` when `standard.min` is truthy and `actual < standard.min`, else
`'EXCESSIVE'` when `standard.max` is truthy and `actual > standard.max`,
else `'ADEQUATE'`. -/
def complianceStatus (actual : ℚ) (std : AAFCOStd) : String :=
  if std.min != 0 && decide (actual < std.min) then "DEFICIENT"
  else if jsTruthyQ std.max && decide (std.max.getD 0 < actual) then "EXCESSIVE"
  else "ADEQUATE"

/-- The status classification exactly as the specification words it:
DEFICIENT if a minimum is defined and the actual value is strictly below it;
otherwise EXCESSIVE if a maximum is defined and the actual value is strictly
above it; otherwise ADEQUATE. Used only to compare against
`complianceStatus`, which is transcribed from the source. -/
def specStatus (actual minv : ℚ) (maxv : Option ℚ) : String :=
  if actual < minv then "DEFICIENT"
  else
    match maxv with
    | some m => if m < actual then "EXCESSIVE" else "ADEQUATE"
    | none => "ADEQUATE"

/-- Boolean sanity check of one standards-table entry: positive minimum, and
any maximum positive and at least the minimum. -/
def stdOk (s : AAFCOStd) : Bool :=
  decide (0 < s.min) &&
    (match s.max with
     | none => true
     | some m => decide (0 < m) && decide (s.min ≤ m))

/-- The `analysis.nutrition` record (`NutritionAnalysis` in `types/index.ts`);
`fiber_g` is optional there. -/
structure Nutrition where
  total_calories_kcal : ℚ
  protein_g : ℚ
  fat_g : ℚ
  carbohydrate_g : ℚ
  fiber_g : Option ℚ
deriving DecidableEq, Repr

/-- The value of the `nutrientDensity` memo in `useRecipeData`. -/
structure Density where
  protein : ℚ
  fat : ℚ
  carbohydrate : ℚ
  fiber : ℚ
deriving DecidableEq, Repr

/-- `useRecipeData.nutrientDensity`: grams per 1000 kcal of the recipe's
actual calories; a missing `fiber_g` contributes `0` (`fiber_g || 0`). -/
def nutrientDensity (nutrition : Nutrition) (actual_calories : ℚ) : Density :=
  let factor := 1000 / actual_calories
  { protein := nutrition.protein_g * factor
    fat := nutrition.fat_g * factor
    carbohydrate := nutrition.carbohydrate_g * factor
    fiber := (nutrition.fiber_g.getD 0) * factor }

/-- `RecipeIngredient` from `types/index.ts`. -/
structure RecipeIngredient where
  fdc_id : ℕ
  description : String
  amount_g : ℚ
  percentage : ℚ
  cost : Option ℚ
  calories : Option ℚ
  category : Option String
deriving DecidableEq, Repr

/-- The `recipe` part of a `RecipeResult`. -/
structure RecipeData where
  pet_id : ℤ
  total_weight_g : ℚ
  target_calories : ℚ
  actual_calories : ℚ
  energy_accuracy : ℚ
  ingredients : List RecipeIngredient
deriving DecidableEq, Repr

/-- The density computation as the hook wires it: the factor is
`1000 / recipeData.actual_calories` (never the target calories). -/
def recipeDensity (recipeData : RecipeData) (nutrition : Nutrition) : Density :=
  nutrientDensity nutrition recipeData.actual_calories

/-- One element of the `macroData` memo. `percentage` holds the numeric value
of `((grams / total) * 100).toFixed(1)`. -/
structure MacroEntry where
  name : String
  value : ℚ
  percentage : ℚ
  color : String
  calories : ℚ
deriving DecidableEq, Repr

/-- `useRecipeData.macroData`: grams, share of total macronutrient grams
(formatted with `toFixed(1)`) and calorie contribution (4/9/4 kcal per gram)
for protein, fat and carbohydrate. -/
def macroData (nutrition : Nutrition) : List MacroEntry :=
  let total := nutrition.protein_g + nutrition.fat_g + nutrition.carbohydrate_g
  [ { name := "Protein", value := nutrition.protein_g,
      percentage := toFixedVal 1 (nutrition.protein_g / total * 100),
      color := "#DC2626", calories := nutrition.protein_g * 4 },
    { name := "Fat", value := nutrition.fat_g,
      percentage := toFixedVal 1 (nutrition.fat_g / total * 100),
      color := "#D97706", calories := nutrition.fat_g * 9 },
    { name := "Carbohydrate", value := nutrition.carbohydrate_g,
      percentage := toFixedVal 1 (nutrition.carbohydrate_g / total * 100),
      color := "#059669", calories := nutrition.carbohydrate_g * 4 } ]

/-- One row pushed onto `complianceArray` in `useRecipeData.complianceData`. -/
structure ComplianceEntry where
  nutrient : String
  actual : ℚ
  required_min : Option ℚ
  required_max : Option ℚ
  unit : String
  status : String
deriving DecidableEq, Repr

/-- The `mainNutrients` array in `complianceData`: protein and fat take the
computed densities; calcium, phosphorus and iron carry hard-coded simulated
values (1250, 1200, 12). -/
def mainNutrients (d : Density) : List (ℕ × String × ℚ) :=
  [ (NutrientID.PROTEIN, "Protein", d.protein),
    (NutrientID.FAT, "Fat", d.fat),
    (NutrientID.CALCIUM, "Calcium", 1250),
    (NutrientID.PHOSPHORUS, "Phosphorus", 1200),
    (NutrientID.IRON, "Iron", 12) ]

/-- `useRecipeData.complianceData`: for each main nutrient whose id has a
standard for the current life stage, an entry with the actual value, the
standard's bounds and the computed status; ids without a standard are
skipped. -/
def complianceData (life_stage : LifeStage) (d : Density) : List ComplianceEntry :=
  (mainNutrients d).filterMap fun n =>
    match lookupStd life_stage n.1 with
    | none => none
    | some std =>
      some { nutrient := n.2.1
             actual := n.2.2
             required_min := some std.min
             required_max := std.max
             unit := std.unit
             status := complianceStatus n.2.2 std }

/-- The per-entry value of the `radarData` memo:
`item.required_min ? Math.min(item.actual / item.required_min * 100, 150) : 100`. -/
def radarValue (actual : ℚ) (required_min : Option ℚ) : ℚ :=
  if jsTruthyQ required_min then min (actual / required_min.getD 0 * 100) 150 else 100

/-- One element of the `radarData` memo. -/
structure RadarEntry where
  nutrient : String
  value : ℚ
  fullMark : ℚ
  status : String
deriving DecidableEq, Repr

/-- `useRecipeData.radarData`: one radar point per compliance entry. -/
def radarData (entries : List ComplianceEntry) : List RadarEntry :=
  entries.map fun item =>
    { nutrient := item.nutrient
      value := radarValue item.actual item.required_min
      fullMark := 150
      status := item.status }

/-- The `status` union of `RecipeResult` in `types/index.ts`:
`'Success' | 'Failed' | 'Error'`. -/
inductive Status
  | success
  | failed
  | error
deriving DecidableEq, Repr

/-- One element of `aafco_compliance.violations`. -/
structure Violation where
  nutrient : String
  required_min : Option ℚ
  required_max : Option ℚ
  actual : ℚ
  unit : String
  status : Option String
deriving DecidableEq, Repr

/-- `AAFCOAnalysis` from `types/index.ts`. -/
structure AAFCOAnalysis where
  compliant : Bool
  violations : List Violation
  score : ℚ
deriving DecidableEq, Repr

/-- `EfficiencyMetrics` from `types/index.ts`. -/
structure EfficiencyMetrics where
  caloric_density_kcal_per_g : ℚ
  cost_efficiency_cost_per_kcal : ℚ
  ingredient_count : ℕ
  weight_category : String
deriving DecidableEq, Repr

/-- The `cost_analysis` record of a `RecipeResult`. -/
structure CostAnalysis where
  total_cost : ℚ
  cost_per_kg : ℚ
deriving DecidableEq, Repr

/-- The `weight_analysis` fields populated by the error fallback result. -/
structure WeightAnalysis where
  optimization_mode : String
  weight_category : String
  weight_reasonable : Bool
deriving DecidableEq, Repr

/-- The `analysis` part of a `RecipeResult`. -/
structure Analysis where
  nutrition : Nutrition
  efficiency : EfficiencyMetrics
  aafco_compliance : AAFCOAnalysis
  cost_analysis : CostAnalysis
  weight_analysis : Option WeightAnalysis
deriving DecidableEq, Repr

/-- `RecipeResult` from `types/index.ts`. -/
structure RecipeResult where
  status : Status
  error : Option String
  recipe : RecipeData
  analysis : Analysis
deriving DecidableEq, Repr

/-- The values computed by the Economic Analysis panel of the recipe-result
component: each cell's number as rendered by `toFixed`. -/
structure EconPanel where
  total_cost_disp : ℚ
  cost_per_kg_disp : ℚ
  cost_per_kcal_disp : ℚ
  energy_density_disp : ℚ
deriving DecidableEq, Repr

/-- The Economic Analysis panel: `total_cost.toFixed(2)`,
`cost_per_kg.toFixed(2)`, `(total_cost / actual_calories).toFixed(3)` and
`(actual_calories / total_weight_g).toFixed(1)`. -/
def econPanel (r : RecipeResult) : EconPanel :=
  { total_cost_disp := toFixedVal 2 r.analysis.cost_analysis.total_cost
    cost_per_kg_disp := toFixedVal 2 r.analysis.cost_analysis.cost_per_kg
    cost_per_kcal_disp :=
      toFixedVal 3 (r.analysis.cost_analysis.total_cost / r.recipe.actual_calories)
    energy_density_disp :=
      toFixedVal 1 (r.recipe.actual_calories / r.recipe.total_weight_g) }

/-- `RecipeGenerationRequest` from `types/index.ts`. -/
structure RecipeGenerationRequest where
  pet_id : ℤ
  target_calories : Option ℚ
  preferred_weight_g : Option ℚ
deriving DecidableEq, Repr

/-- A backend reply to `POST /recipes/generate`, as the service code reads
it: a status, an optional error message, and possibly missing `recipe` /
`analysis` parts (the `!response.data.recipe || !response.data.analysis`
check). -/
structure BackendResponse where
  status : Status
  error : Option String
  recipe : Option RecipeData
  analysis : Option Analysis
deriving DecidableEq, Repr

/-- What the awaited HTTP call produced: either an Axios error (carrying the
optional `error.response.data.detail` and `error.message` strings) or a
response body. -/
inductive APIOutcome
  | axiosErr (detail : Option String) (message : Option String)
  | response (resp : BackendResponse)
deriving DecidableEq, Repr

/-- The fallback `RecipeResult` built in `generateRecipe`'s catch block for
Axios errors: status `'Error'`, an empty zeroed recipe and a zeroed
analysis with `compliant: false, score: 0`. -/
def errorRecipeResult (request : RecipeGenerationRequest) (errMsg : String) : RecipeResult :=
  { status := .error
    error := some errMsg
    recipe :=
      { pet_id := request.pet_id
        total_weight_g := 0
        target_calories := jsOrQ request.target_calories 0
        actual_calories := 0
        energy_accuracy := 0
        ingredients := [] }
    analysis :=
      { nutrition :=
          { total_calories_kcal := 0, protein_g := 0, fat_g := 0,
            carbohydrate_g := 0, fiber_g := some 0 }
        efficiency :=
          { caloric_density_kcal_per_g := 0, cost_efficiency_cost_per_kcal := 0,
            ingredient_count := 0, weight_category := "Unknown" }
        aafco_compliance := { compliant := false, violations := [], score := 0 }
        cost_analysis := { total_cost := 0, cost_per_kg := 0 }
        weight_analysis :=
          some { optimization_mode := "unknown", weight_category := "Unknown",
                 weight_reasonable := false } } }

/-- `recipeAPI.generateRecipe` from the services module, as a function of the
HTTP outcome. A response with `status === 'Error'` throws
`new Error(response.data.error || 'Recipe generation failed')` (rethrown by
the catch block, which only converts Axios errors); a response missing
`recipe` or `analysis` throws `'Recipe data structure is incomplete'`; an
Axios error is converted to the fallback `'Error'` result whose message is
`detail || message || 'Network error'`. -/
def generateRecipe (request : RecipeGenerationRequest) (out : APIOutcome) :
    Except String RecipeResult :=
  match out with
  | .axiosErr detail message =>
      Except.ok (errorRecipeResult request (jsOrS detail (jsOrS message "Network error")))
  | .response resp =>
      if resp.status = Status.error then
        Except.error (jsOrS resp.error "Recipe generation failed")
      else
        match resp.recipe, resp.analysis with
        | some r, some a =>
            Except.ok { status := resp.status, error := resp.error, recipe := r, analysis := a }
        | _, _ => Except.error "Recipe data structure is incomplete"

/-- `calculateLifeStage` from the services module. -/
def calculateLifeStage (species : String) (age_months : ℚ) : LifeStage :=
  if species = "dog" then
    if age_months < 12 then .DOG_PUPPY else .DOG_ADULT
  else if species = "cat" then
    if age_months < 12 then .CAT_KITTEN else .CAT_ADULT
  else
    .DOG_ADULT

lemma aafco_all_stdOk : ∀ ls : LifeStage, (AAFCO_STANDARDS ls).all (fun p => stdOk p.2) = true := by
  intro ls
  cases ls <;> simp [AAFCO_STANDARDS, stdOk] <;> norm_num

lemma aafco_min_pos {ls : LifeStage} {p : ℕ × AAFCOStd} (hp : p ∈ AAFCO_STANDARDS ls) :
    0 < p.2.min := by
  have h := List.all_eq_true.mp (aafco_all_stdOk ls) p hp
  have h1 := (Bool.and_eq_true _ _).mp h |>.1
  exact of_decide_eq_true h1

lemma aafco_max_pos {ls : LifeStage} {p : ℕ × AAFCOStd} (hp : p ∈ AAFCO_STANDARDS ls)
    {m : ℚ} (hm : p.2.max = some m) : 0 < m ∧ p.2.min ≤ m := by
  have h := List.all_eq_true.mp (aafco_all_stdOk ls) p hp
  have h2 := (Bool.and_eq_true _ _).mp h |>.2
  rw [hm] at h2
  simp only [Bool.and_eq_true, decide_eq_true_eq] at h2
  exact h2

/-- With a positive minimum and a (possibly absent) positive maximum, the
source's truthiness-guarded status computation coincides with the
specification's classification. -/
lemma complianceStatus_eq_specStatus {std : AAFCOStd} (hmin : 0 < std.min)
    (hmax : ∀ m, std.max = some m → 0 < m) (actual : ℚ) :
    complianceStatus actual std = specStatus actual std.min std.max := by
  unfold complianceStatus specStatus jsTruthyQ
  have hne : (std.min != 0) = true := by simp [bne_iff_ne, ne_of_gt hmin]
  cases hstdmax : std.max with
  | none =>
    simp [hne]
  | some m =>
    have hmpos : 0 < m := hmax m hstdmax
    have hmne : (Option.getD (some m) 0 != 0) = true := by
      simp [bne_iff_ne, ne_of_gt hmpos]
    by_cases hlt : actual < std.min
    · simp [hne, hlt]
    · by_cases hgt : m < actual
      · simp [hne, hlt, hmne, hgt, ne_of_gt hmpos]
      · simp [hne, hlt, hmne, hgt, ne_of_gt hmpos]

lemma jsOrS_ne_empty {a : Option String} {b : String} (hb : b ≠ "") : jsOrS a b ≠ "" := by
  cases a with
  | none => simpa [jsOrS] using hb
  | some s => by_cases hs : s = "" <;> simp [jsOrS, hs, hb]

lemma complianceData_map_required_min (ls : LifeStage) (d : Density) :
    (complianceData ls d).map (fun e => e.required_min) =
      (match ls with
       | .DOG_ADULT => [some (45.0 : ℚ), some 13.8, some (1.25 * 1000), some (1.0 * 1000), some 10]
       | .DOG_PUPPY => [some (30 : ℚ), some 21.3, some (3.0 * 1000), some (2.5 * 1000), some 22]
       | .CAT_ADULT => [some (63.0 : ℚ), some 22.5, some (1.44 * 1000), some (1.25 * 1000), some 20]
       | .CAT_KITTEN => [some (75.0 : ℚ), some 22.5, some (2.4 * 1000), some (2.0 * 1000), some 20]) := by
  cases ls <;> rfl

lemma complianceData_required_min_pos {ls : LifeStage} {d : Density} {item : ComplianceEntry}
    (h : item ∈ complianceData ls d) :
    ∃ m, item.required_min = some m ∧ 0 < m := by
  have hm := List.mem_map_of_mem (fun e => e.required_min) h
  rw [complianceData_map_required_min] at hm
  cases ls <;>
    simp only [List.mem_cons, List.not_mem_nil, or_false] at hm <;>
    rcases hm with h1 | h1 | h1 | h1 | h1 <;>
    exact ⟨_, h1, by norm_num⟩

/-- C1: for every nutrient with a standard in the AAFCO table, the computed
compliance status is DEFICIENT when the actual value is strictly below the
minimum, otherwise EXCESSIVE when a maximum is defined and the actual value
is strictly above it, otherwise ADEQUATE (values equal to a bound are
ADEQUATE); and the status is a function of the actual value and the
{min, max} pair alone. -/
theorem complianceStatus_matches_spec (ls : LifeStage) (p : ℕ × AAFCOStd)
    (hp : p ∈ AAFCO_STANDARDS ls) (actual : ℚ) :
    complianceStatus actual p.2 = specStatus actual p.2.min p.2.max
    ∧ ∀ s : AAFCOStd, s.min = p.2.min → s.max = p.2.max →
        complianceStatus actual s = complianceStatus actual p.2 := by
  constructor
  · exact complianceStatus_eq_specStatus (aafco_min_pos hp)
      (fun m hm => (aafco_max_pos hp hm).1) actual
  · intro s h1 h2
    simp [complianceStatus, jsTruthyQ, h1, h2]

theorem complianceStatus_matches_spec_witness :
    complianceStatus 50 ⟨45.0, none, "G", NutrientID.PROTEIN⟩ = specStatus 50 45.0 none :=
  (complianceStatus_matches_spec .DOG_ADULT
    (NutrientID.PROTEIN, ⟨45.0, none, "G", NutrientID.PROTEIN⟩)
    (List.mem_cons_self _ _) 50).1

/-- C8: every entry of the AAFCO_STANDARDS table, for every life stage, has a
strictly positive minimum, and whenever the maximum is non-null the minimum
is at most the maximum. -/
theorem aafco_standards_bounds (ls : LifeStage) (p : ℕ × AAFCOStd)
    (hp : p ∈ AAFCO_STANDARDS ls) :
    0 < p.2.min ∧ ∀ m, p.2.max = some m → p.2.min ≤ m :=
  ⟨aafco_min_pos hp, fun _ hm => (aafco_max_pos hp hm).2⟩

theorem aafco_standards_bounds_witness :
    0 < (1.25 * 1000 : ℚ) ∧ (1.25 * 1000 : ℚ) ≤ 6.25 * 1000 := by
  have h := aafco_standards_bounds .DOG_ADULT
    (NutrientID.CALCIUM, ⟨1.25 * 1000, some (6.25 * 1000), "MG", NutrientID.CALCIUM⟩)
    (by simp [AAFCO_STANDARDS])
  exact ⟨h.1, h.2 _ rfl⟩

/-- C10: calculateLifeStage maps a dog younger than 12 months to DOG_PUPPY, a
dog of 12 months or more to DOG_ADULT, a cat younger than 12 months to
CAT_KITTEN, a cat of 12 months or more to CAT_ADULT, and any other species
to DOG_ADULT. -/
theorem calculateLifeStage_spec (species : String) (age_months : ℚ) :
    (species = "dog" → age_months < 12 →
        calculateLifeStage species age_months = LifeStage.DOG_PUPPY)
    ∧ (species = "dog" → 12 ≤ age_months →
        calculateLifeStage species age_months = LifeStage.DOG_ADULT)
    ∧ (species = "cat" → age_months < 12 →
        calculateLifeStage species age_months = LifeStage.CAT_KITTEN)
    ∧ (species = "cat" → 12 ≤ age_months →
        calculateLifeStage species age_months = LifeStage.CAT_ADULT)
    ∧ (species ≠ "dog" → species ≠ "cat" →
        calculateLifeStage species age_months = LifeStage.DOG_ADULT) := by
  refine ⟨?_, ?_, ?_, ?_, ?_⟩ <;> intro h1 h2
  · simp [calculateLifeStage, h1, h2]
  · simp [calculateLifeStage, h1, not_lt.mpr h2]
  · have : species ≠ "dog" := by simp [h1]
    simp [calculateLifeStage, h1, h2, this]
  · have : species ≠ "dog" := by simp [h1]
    simp [calculateLifeStage, h1, not_lt.mpr h2, this]
  · simp [calculateLifeStage, h1, h2]

theorem calculateLifeStage_spec_witness :
    calculateLifeStage "dog" 6 = LifeStage.DOG_PUPPY
    ∧ calculateLifeStage "cat" 24 = LifeStage.CAT_ADULT :=
  ⟨(calculateLifeStage_spec "dog" 6).1 rfl (by norm_num),
   (calculateLifeStage_spec "cat" 24).2.2.2.1 rfl (by norm_num)⟩

/-- C2 (amended): the compliance data is a pure function of the solved
recipe's nutrition and the life stage's requirement set, but only the
Protein and Fat rows derive their 'actual' value from the recipe (grams per
1000 kcal of the actual calories); the Calcium, Phosphorus and Iron rows
carry the hard-coded simulated values 1250, 1200 and 12 regardless of the
recipe. -/
theorem complianceData_actual_sources (ls : LifeStage) (nutrition : Nutrition)
    (rd : RecipeData) :
    (complianceData ls (recipeDensity rd nutrition)).map (fun e => e.actual) =
      [ nutrition.protein_g * (1000 / rd.actual_calories),
        nutrition.fat_g * (1000 / rd.actual_calories),
        1250, 1200, 12 ] := by
  cases ls <;> rfl

/-- C2 counterexample: two recipes whose nutrient contents differ (protein
30 g vs 60 g at the same 1000 actual kcal) give the identical 'actual'
value 1250 in the listed Calcium row, so not every listed nutrient's
'actual' is derived from the recipe. -/
theorem complianceData_constant_actual_cex :
    (30 : ℚ) ≠ 60
    ∧ ((complianceData .DOG_ADULT (nutrientDensity ⟨1000, 30, 20, 40, none⟩ 1000)).map
        (fun e => e.actual)).get? 2
      = ((complianceData .DOG_ADULT (nutrientDensity ⟨1000, 60, 20, 40, none⟩ 1000)).map
        (fun e => e.actual)).get? 2
    ∧ ((complianceData .DOG_ADULT (nutrientDensity ⟨1000, 30, 20, 40, none⟩ 1000)).map
        (fun e => e.actual)).get? 2 = some 1250 :=
  ⟨by norm_num, rfl, rfl⟩

/-- C3: for a recipe with positive actual calories, each computed nutrient
density equals the analysis grams times 1000 divided by the actual (not
target) calories, with a missing fiber value treated as 0 grams; the
density depends on the recipe only through its actual calories. -/
theorem nutrientDensity_formula (rd : RecipeData) (nutrition : Nutrition)
    (h : 0 < rd.actual_calories) :
    (recipeDensity rd nutrition).protein = nutrition.protein_g * 1000 / rd.actual_calories
    ∧ (recipeDensity rd nutrition).fat = nutrition.fat_g * 1000 / rd.actual_calories
    ∧ (recipeDensity rd nutrition).carbohydrate
        = nutrition.carbohydrate_g * 1000 / rd.actual_calories
    ∧ (recipeDensity rd nutrition).fiber
        = nutrition.fiber_g.getD 0 * 1000 / rd.actual_calories
    ∧ (nutrition.fiber_g = none → (recipeDensity rd nutrition).fiber = 0)
    ∧ ∀ rd' : RecipeData, rd'.actual_calories = rd.actual_calories →
        recipeDensity rd' nutrition = recipeDensity rd nutrition := by
  refine ⟨?_, ?_, ?_, ?_, ?_, ?_⟩
  · simp [recipeDensity, nutrientDensity, mul_div_assoc]
  · simp [recipeDensity, nutrientDensity, mul_div_assoc]
  · simp [recipeDensity, nutrientDensity, mul_div_assoc]
  · simp [recipeDensity, nutrientDensity, mul_div_assoc]
  · intro hf
    simp [recipeDensity, nutrientDensity, hf]
  · intro rd' hac
    simp [recipeDensity, hac]

theorem nutrientDensity_formula_witness :
    (0 : ℚ) < 500
    ∧ (recipeDensity ⟨1, 400, 450, 500, 90, []⟩ ⟨500, 30, 20, 40, none⟩).protein
        = 30 * 1000 / 500 :=
  ⟨by norm_num,
   (nutrientDensity_formula ⟨1, 400, 450, 500, 90, []⟩ ⟨500, 30, 20, 40, none⟩ (by norm_num)).1⟩

/-- C4: every compliance entry has a defined positive minimum, and its radar
value is the adequacy ratio actual/min expressed as a percentage and capped
at 150 (hence never exceeding 150); an entry with no defined minimum would
get exactly 100; the radar data's values are exactly these per-entry
values. -/
theorem radarValue_spec (ls : LifeStage) (d : Density) (item : ComplianceEntry)
    (h : item ∈ complianceData ls d) (a : ℚ) :
    (∃ m, item.required_min = some m ∧ 0 < m
        ∧ radarValue item.actual item.required_min = min (item.actual / m * 100) 150
        ∧ radarValue item.actual item.required_min ≤ 150)
    ∧ radarValue a none = 100
    ∧ (radarData (complianceData ls d)).map (fun e => e.value)
        = (complianceData ls d).map (fun e => radarValue e.actual e.required_min) := by
  refine ⟨?_, ?_, ?_⟩
  · obtain ⟨m, hm, hmpos⟩ := complianceData_required_min_pos h
    refine ⟨m, hm, hmpos, ?_, ?_⟩
    · simp [radarValue, jsTruthyQ, hm, bne_iff_ne, ne_of_gt hmpos]
    · rw [radarValue, if_pos]
      · exact min_le_right _ _
      · simp [jsTruthyQ, hm, bne_iff_ne, ne_of_gt hmpos]
  · simp [radarValue, jsTruthyQ]
  · simp [radarData, List.map_map, Function.comp]

theorem radarValue_spec_witness :
    radarValue 50 (some (45.0 : ℚ)) ≤ 150 ∧ radarValue 5 none = 100 := by
  have h := radarValue_spec .DOG_ADULT ⟨50, 20, 30, 5⟩
    ⟨"Protein", 50, some 45.0, none, "G",
      complianceStatus 50 ⟨45.0, none, "G", NutrientID.PROTEIN⟩⟩
    (List.mem_cons_self _ _) 5
  obtain ⟨⟨m, hm, -, -, hle⟩, h100, -⟩ := h
  exact ⟨hle, h100⟩

/-- C5: the Economic Analysis panel's cost-per-kcal cell shows
total_cost / actual_calories and its energy-density cell shows
actual_calories / total_weight_g (each then formatted by toFixed), computed
directly from the result's cost_analysis.total_cost, actual_calories and
total_weight_g fields — results agreeing on those fields render the same
panel. -/
theorem econPanel_direct (r r' : RecipeResult)
    (h1 : r'.analysis.cost_analysis = r.analysis.cost_analysis)
    (h2 : r'.recipe.actual_calories = r.recipe.actual_calories)
    (h3 : r'.recipe.total_weight_g = r.recipe.total_weight_g) :
    (econPanel r).cost_per_kcal_disp
        = toFixedVal 3 (r.analysis.cost_analysis.total_cost / r.recipe.actual_calories)
    ∧ (econPanel r).energy_density_disp
        = toFixedVal 1 (r.recipe.actual_calories / r.recipe.total_weight_g)
    ∧ econPanel r' = econPanel r := by
  refine ⟨rfl, rfl, ?_⟩
  simp [econPanel, h1, h2, h3]

theorem econPanel_direct_witness :
    (econPanel (errorRecipeResult ⟨1, none, none⟩ "x")).cost_per_kcal_disp
        = toFixedVal 3
            ((errorRecipeResult ⟨1, none, none⟩ "x").analysis.cost_analysis.total_cost
              / (errorRecipeResult ⟨1, none, none⟩ "x").recipe.actual_calories)
    ∧ (econPanel (errorRecipeResult ⟨1, none, none⟩ "x")).energy_density_disp
        = toFixedVal 1
            ((errorRecipeResult ⟨1, none, none⟩ "x").recipe.actual_calories
              / (errorRecipeResult ⟨1, none, none⟩ "x").recipe.total_weight_g)
    ∧ econPanel (errorRecipeResult ⟨1, none, none⟩ "x")
        = econPanel (errorRecipeResult ⟨1, none, none⟩ "x") :=
  econPanel_direct (errorRecipeResult ⟨1, none, none⟩ "x")
    (errorRecipeResult ⟨1, none, none⟩ "x") rfl rfl rfl

/-- C6: a caught Axios error yields an ok result with status 'Error', a
non-empty error message, an empty zeroed recipe, and aafco_compliance with
compliant = false and score = 0; a backend response whose status is 'Error'
makes generateRecipe reject with that response's error message rather than
return it. -/
theorem generateRecipe_error_handling (request : RecipeGenerationRequest)
    (detail message : Option String) (resp : BackendResponse)
    (hresp : resp.status = Status.error) :
    (∃ res, generateRecipe request (.axiosErr detail message) = Except.ok res
       ∧ res.status = Status.error
       ∧ (∃ e, res.error = some e ∧ e ≠ "")
       ∧ res.recipe.ingredients = []
       ∧ res.recipe.total_weight_g = 0
       ∧ res.recipe.actual_calories = 0
       ∧ res.recipe.energy_accuracy = 0
       ∧ res.analysis.aafco_compliance.compliant = false
       ∧ res.analysis.aafco_compliance.score = 0)
    ∧ ∃ msg, generateRecipe request (.response resp) = Except.error msg
        ∧ ∀ e, resp.error = some e → e ≠ "" → msg = e := by
  constructor
  · refine ⟨errorRecipeResult request (jsOrS detail (jsOrS message "Network error")),
      rfl, rfl, ⟨jsOrS detail (jsOrS message "Network error"), rfl, ?_⟩,
      rfl, rfl, rfl, rfl, rfl, rfl⟩
    exact jsOrS_ne_empty (jsOrS_ne_empty (by decide))
  · refine ⟨jsOrS resp.error "Recipe generation failed", ?_, ?_⟩
    · simp [generateRecipe, hresp]
    · intro e he hne
      simp [jsOrS, he, hne]

theorem generateRecipe_error_handling_witness :
    ∃ msg, generateRecipe ⟨1, some 1000, none⟩
        (.response ⟨Status.error, some "boom", none, none⟩) = Except.error msg
      ∧ msg = "boom" := by
  obtain ⟨-, msg, hmsg, hall⟩ :=
    generateRecipe_error_handling ⟨1, some 1000, none⟩ none none
      ⟨Status.error, some "boom", none, none⟩ rfl
  exact ⟨msg, hmsg, hall "boom" rfl (by decide)⟩

/-- C7 (amended): the status of every recipe-generation result is one of the
three values of the RecipeResult status union — 'Success', 'Failed' or
'Error'; the Axios-error fallback always carries 'Error', and a result
returned from a backend response carries the response's own status, which
(because 'Error' responses are thrown) is 'Success' or 'Failed'. -/
theorem generateRecipe_status_closed (request : RecipeGenerationRequest)
    (detail message : Option String) (resp : BackendResponse) (res : RecipeResult) :
    (res.status = Status.success ∨ res.status = Status.failed ∨ res.status = Status.error)
    ∧ (generateRecipe request (.axiosErr detail message) = Except.ok res →
        res.status = Status.error)
    ∧ (generateRecipe request (.response resp) = Except.ok res →
        res.status = resp.status
        ∧ (res.status = Status.success ∨ res.status = Status.failed)) := by
  refine ⟨by cases res.status <;> simp, ?_, ?_⟩
  · intro h
    simp only [generateRecipe, Except.ok.injEq] at h
    rw [← h]
    rfl
  · intro h
    by_cases hs : resp.status = Status.error
    · simp [generateRecipe, hs] at h
    · cases hr : resp.recipe with
      | none =>
        simp [generateRecipe, hs, hr] at h
      | some r =>
        cases ha : resp.analysis with
        | none => simp [generateRecipe, hs, hr, ha] at h
        | some a =>
          simp only [generateRecipe, hs, if_false, hr, ha, Except.ok.injEq] at h
          rw [← h]
          refine ⟨rfl, ?_⟩
          cases hst : resp.status <;> simp_all

theorem generateRecipe_status_closed_witness :
    (errorRecipeResult ⟨1, none, none⟩ "Network error").status = Status.error := by
  have h := generateRecipe_status_closed ⟨1, none, none⟩ none none
    ⟨Status.success, none, none, none⟩ (errorRecipeResult ⟨1, none, none⟩ "Network error")
  exact h.2.1 rfl

/-- C7 counterexample: a backend reply carrying the RecipeResult type's third
status value 'Failed', with recipe and analysis present, is returned
unchanged by generateRecipe, so a result whose status is neither 'Success'
nor 'Error' is produced and accepted. -/
theorem generateRecipe_status_failed_cex :
    ∃ res, generateRecipe ⟨1, some 1000, none⟩
        (.response ⟨Status.failed, none, some ⟨1, 100, 200, 210, 95, []⟩,
          some ⟨⟨0, 0, 0, 0, none⟩, ⟨0, 0, 0, "Unknown"⟩, ⟨false, [], 0⟩, ⟨0, 0⟩, none⟩⟩)
        = Except.ok res
      ∧ res.status ≠ Status.success ∧ res.status ≠ Status.error :=
  ⟨_, rfl, by simp, by simp⟩

/-- C9 counterexample: with 1 g each of protein, fat and carbohydrate the
three chart `percentage` values are each the rounded 33.3, so they sum to
99.9 and not 100 even though the total grams are positive. -/
theorem macroData_percentage_cex :
    (0 : ℚ) < 1 + 1 + 1
    ∧ ((macroData ⟨0, 1, 1, 1, none⟩).map (fun e => e.percentage)).sum = 999 / 10
    ∧ ((999 : ℚ) / 10) ≠ 100 := by
  refine ⟨by norm_num, ?_, by norm_num⟩
  simp only [macroData, List.map_cons, List.map_nil, List.sum_cons, List.sum_nil,
    toFixedVal, round_eq]
  norm_num

/-- C9 (amended): in the macronutrient chart data the calorie contributions
are 4, 9 and 4 kcal per gram of protein, fat and carbohydrate; each stored
percentage is grams divided by the sum of the three gram values times 100,
rounded to one decimal by toFixed(1); and the three unrounded ratios sum to
100 whenever the sum of grams is positive. -/
theorem macroData_spec (nutrition : Nutrition)
    (h : 0 < nutrition.protein_g + nutrition.fat_g + nutrition.carbohydrate_g) :
    (macroData nutrition).map (fun e => e.calories)
        = [nutrition.protein_g * 4, nutrition.fat_g * 9, nutrition.carbohydrate_g * 4]
    ∧ (macroData nutrition).map (fun e => e.percentage)
        = [toFixedVal 1 (nutrition.protein_g
              / (nutrition.protein_g + nutrition.fat_g + nutrition.carbohydrate_g) * 100),
           toFixedVal 1 (nutrition.fat_g
              / (nutrition.protein_g + nutrition.fat_g + nutrition.carbohydrate_g) * 100),
           toFixedVal 1 (nutrition.carbohydrate_g
              / (nutrition.protein_g + nutrition.fat_g + nutrition.carbohydrate_g) * 100)]
    ∧ nutrition.protein_g
          / (nutrition.protein_g + nutrition.fat_g + nutrition.carbohydrate_g) * 100
        + nutrition.fat_g
          / (nutrition.protein_g + nutrition.fat_g + nutrition.carbohydrate_g) * 100
        + nutrition.carbohydrate_g
          / (nutrition.protein_g + nutrition.fat_g + nutrition.carbohydrate_g) * 100
        = 100 := by
  refine ⟨rfl, rfl, ?_⟩
  have hne : nutrition.protein_g + nutrition.fat_g + nutrition.carbohydrate_g ≠ 0 := h.ne'
  field_simp
  ring

theorem macroData_spec_witness :
    (2 : ℚ) / (2 + 1 + 1) * 100 + 1 / (2 + 1 + 1) * 100 + 1 / (2 + 1 + 1) * 100 = 100 :=
  (macroData_spec ⟨0, 2, 1, 1, none⟩ (by norm_num)).2.2

end PetNutrition
